import Mathlib

/-!
Verification development for the OCI inventory crawl scripts.

The main embedding (`OCISimple`) models `server/services/oci-inventory-simple.py`:
its `OCIInventoryService.discover_resources`, `_get_compartments` and `main`.
Every external SDK listing call is a field of an `Env` record returning
`Except String α`, where `.error msg` models the call raising an exception with
that message; the Python `try/except`-and-log blocks become `match` on that
`Except`.  A second embedding (`OCISearch`) models `discover_resources` of the
top-level `oci_discovery.py` (the resource-search based script).
-/

namespace OCISimple

/-- An SDK datetime value (opaque to the crawl, only ever rendered). -/
structure Timestamp where
  epoch : Nat
deriving DecidableEq

/-- `datetime.isoformat()`: the canonical textual rendering of a timestamp. -/
def Timestamp.isoformat (t : Timestamp) : String :=
  "1970-01-01T00:00:" ++ toString t.epoch

/-- A JSON-serializable field value as built by the scripts.  `Value.ts` is a
raw (non-textual) SDK datetime object: the scripts must never emit one. -/
inductive Value where
  | str : String → Value
  | num : Nat → Value
  | null : Value
  | ts : Timestamp → Value
  | obj : List (String × String) → Value
deriving DecidableEq

/-- One flattened resource dictionary, in insertion order. -/
abbrev Record := List (String × Value)

/-- A compartment as kept by `_get_compartments`: `{"id": ..., "name": ...}`. -/
structure Compartment where
  id : String
  name : String
deriving DecidableEq

/-- `x.time_created.isoformat() if x.time_created else None`. -/
def tsField : Option Timestamp → Value
  | some t => Value.str t.isoformat
  | none => Value.null

/-- A compute instance as consumed by the script (lines 88-97). -/
structure Instance where
  id : String
  display_name : String
  shape : String
  lifecycle_state : String
  availability_domain : String
  time_created : Option Timestamp
deriving DecidableEq

/-- A block volume (lines 105-114). -/
structure Volume where
  id : String
  display_name : String
  size_in_gbs : Nat
  lifecycle_state : String
  availability_domain : String
  time_created : Option Timestamp
deriving DecidableEq

/-- An object-storage bucket (lines 129-136). -/
structure Bucket where
  name : String
  time_created : Option Timestamp
deriving DecidableEq

/-- An autonomous database (lines 144-154). -/
structure Adb where
  id : String
  display_name : String
  db_name : String
  lifecycle_state : String
  cpu_core_count : Nat
  data_storage_size_in_tbs : Nat
  time_created : Option Timestamp
deriving DecidableEq

/-- A load balancer (lines 162-170). -/
structure LoadBalancer where
  id : String
  display_name : String
  lifecycle_state : String
  shape_name : String
  time_created : Option Timestamp
deriving DecidableEq

/-- A virtual cloud network (lines 178-186). -/
structure Vcn where
  id : String
  display_name : String
  cidr_block : String
  lifecycle_state : String
  time_created : Option Timestamp
deriving DecidableEq

/-- A subnet (lines 194-203). -/
structure Subnet where
  id : String
  display_name : String
  cidr_block : String
  lifecycle_state : String
  vcn_id : String
  time_created : Option Timestamp
deriving DecidableEq

/-- A security list (lines 211-219). -/
structure SecurityList where
  id : String
  display_name : String
  lifecycle_state : String
  vcn_id : String
  time_created : Option Timestamp
deriving DecidableEq

/-- The dictionary appended to `resources["compute_instances"]` (lines 89-97). -/
def instanceRecord (compName : String) (i : Instance) : Record :=
  [("id", Value.str i.id),
   ("display_name", Value.str i.display_name),
   ("shape", Value.str i.shape),
   ("state", Value.str i.lifecycle_state),
   ("compartment", Value.str compName),
   ("availability_domain", Value.str i.availability_domain),
   ("time_created", tsField i.time_created)]

/-- The dictionary appended to `resources["block_volumes"]` (lines 106-114). -/
def volumeRecord (compName : String) (v : Volume) : Record :=
  [("id", Value.str v.id),
   ("display_name", Value.str v.display_name),
   ("size_gb", Value.num v.size_in_gbs),
   ("state", Value.str v.lifecycle_state),
   ("compartment", Value.str compName),
   ("availability_domain", Value.str v.availability_domain),
   ("time_created", tsField v.time_created)]

/-- The dictionary appended to `resources["object_storage_buckets"]`
(lines 130-136); `ns` is the namespace fetched just before. -/
def bucketRecord (compName : String) (ns : String) (b : Bucket) : Record :=
  [("id", Value.str b.name),
   ("display_name", Value.str b.name),
   ("namespace", Value.str ns),
   ("compartment", Value.str compName),
   ("time_created", tsField b.time_created)]

/-- The dictionary appended to `resources["autonomous_databases"]` (lines 145-154). -/
def adbRecord (compName : String) (a : Adb) : Record :=
  [("id", Value.str a.id),
   ("display_name", Value.str a.display_name),
   ("db_name", Value.str a.db_name),
   ("state", Value.str a.lifecycle_state),
   ("compartment", Value.str compName),
   ("cpu_core_count", Value.num a.cpu_core_count),
   ("data_storage_size_in_tbs", Value.num a.data_storage_size_in_tbs),
   ("time_created", tsField a.time_created)]

/-- The dictionary appended to `resources["load_balancers"]` (lines 163-170). -/
def lbRecord (compName : String) (l : LoadBalancer) : Record :=
  [("id", Value.str l.id),
   ("display_name", Value.str l.display_name),
   ("state", Value.str l.lifecycle_state),
   ("compartment", Value.str compName),
   ("shape_name", Value.str l.shape_name),
   ("time_created", tsField l.time_created)]

/-- The dictionary appended to `resources["vcns"]` (lines 179-186). -/
def vcnRecord (compName : String) (v : Vcn) : Record :=
  [("id", Value.str v.id),
   ("display_name", Value.str v.display_name),
   ("cidr_block", Value.str v.cidr_block),
   ("state", Value.str v.lifecycle_state),
   ("compartment", Value.str compName),
   ("time_created", tsField v.time_created)]

/-- The dictionary appended to `resources["subnets"]` (lines 195-203). -/
def subnetRecord (compName : String) (s : Subnet) : Record :=
  [("id", Value.str s.id),
   ("display_name", Value.str s.display_name),
   ("cidr_block", Value.str s.cidr_block),
   ("state", Value.str s.lifecycle_state),
   ("compartment", Value.str compName),
   ("vcn_id", Value.str s.vcn_id),
   ("time_created", tsField s.time_created)]

/-- The dictionary appended to `resources["security_lists"]` (lines 212-219). -/
def securityListRecord (compName : String) (s : SecurityList) : Record :=
  [("id", Value.str s.id),
   ("display_name", Value.str s.display_name),
   ("state", Value.str s.lifecycle_state),
   ("compartment", Value.str compName),
   ("vcn_id", Value.str s.vcn_id),
   ("time_created", tsField s.time_created)]

/-- The external world as seen by one crawl of `oci-inventory-simple.py`: the
config/signer/client construction (`setup`), the two identity calls used by
`_get_compartments`, and each per-category listing call keyed by compartment
id.  `.error msg` models the call raising. -/
structure Env where
  setup : Except String Unit
  get_compartment : String → Except String Compartment
  list_compartments : String → Except String (List Compartment)
  list_instances : String → Except String (List Instance)
  list_volumes : String → Except String (List Volume)
  get_namespace : Except String String
  list_buckets : String → String → Except String (List Bucket)
  list_autonomous_databases : String → Except String (List Adb)
  list_load_balancers : String → Except String (List LoadBalancer)
  list_vcns : String → Except String (List Vcn)
  list_subnets : String → Except String (List Subnet)
  list_security_lists : String → Except String (List SecurityList)

/-- One `try: resp = client.list_x(...); for r in resp.data: append(norm r)`
block with its `except` that logs and contributes nothing. -/
def tryCollect {α : Type} (resp : Except String (List α)) (norm : α → Record) :
    List Record :=
  match resp with
  | Except.ok xs => xs.map norm
  | Except.error _ => []

/-- The object-storage try block (lines 120-139): `get_namespace` then
`list_buckets`, both inside the same `try`. -/
def collectBuckets (env : Env) (compId compName : String) : List Record :=
  match env.get_namespace with
  | Except.error _ => []
  | Except.ok ns =>
    match env.list_buckets ns compId with
    | Except.error _ => []
    | Except.ok bs => bs.map (bucketRecord compName ns)

/-- The statically registered resource categories: the keys of the
`resources` dict literal (lines 68-77), in source order. -/
inductive Category where
  | compute_instances
  | block_volumes
  | object_storage_buckets
  | autonomous_databases
  | load_balancers
  | vcns
  | subnets
  | security_lists
deriving DecidableEq

/-- The dict key string of a category. -/
def Category.key : Category → String
  | compute_instances => "compute_instances"
  | block_volumes => "block_volumes"
  | object_storage_buckets => "object_storage_buckets"
  | autonomous_databases => "autonomous_databases"
  | load_balancers => "load_balancers"
  | vcns => "vcns"
  | subnets => "subnets"
  | security_lists => "security_lists"

/-- The key strings of the `resources` dict literal, in source order. -/
def categories : List String :=
  ["compute_instances", "block_volumes", "object_storage_buckets",
   "autonomous_databases", "load_balancers", "vcns", "subnets",
   "security_lists"]

/-- The records one (compartment, collector) invocation contributes: exactly
the body of the corresponding try block of the scan loop (lines 85-222). -/
def pairRecords (env : Env) (c : Compartment) : Category → List Record
  | Category.compute_instances =>
      tryCollect (env.list_instances c.id) (instanceRecord c.name)
  | Category.block_volumes =>
      tryCollect (env.list_volumes c.id) (volumeRecord c.name)
  | Category.object_storage_buckets => collectBuckets env c.id c.name
  | Category.autonomous_databases =>
      tryCollect (env.list_autonomous_databases c.id) (adbRecord c.name)
  | Category.load_balancers =>
      tryCollect (env.list_load_balancers c.id) (lbRecord c.name)
  | Category.vcns => tryCollect (env.list_vcns c.id) (vcnRecord c.name)
  | Category.subnets => tryCollect (env.list_subnets c.id) (subnetRecord c.name)
  | Category.security_lists =>
      tryCollect (env.list_security_lists c.id) (securityListRecord c.name)

/-- The `resources` dict (lines 68-77): a fixed-key mapping from category to
the list of records accumulated so far. -/
structure Resources where
  compute_instances : List Record
  block_volumes : List Record
  object_storage_buckets : List Record
  autonomous_databases : List Record
  load_balancers : List Record
  vcns : List Record
  subnets : List Record
  security_lists : List Record
deriving DecidableEq

/-- The dict literal with all-empty lists (lines 68-77). -/
def emptyResources : Resources :=
  ⟨[], [], [], [], [], [], [], []⟩

/-- `resources[cat]`. -/
def Resources.fieldOf (r : Resources) : Category → List Record
  | Category.compute_instances => r.compute_instances
  | Category.block_volumes => r.block_volumes
  | Category.object_storage_buckets => r.object_storage_buckets
  | Category.autonomous_databases => r.autonomous_databases
  | Category.load_balancers => r.load_balancers
  | Category.vcns => r.vcns
  | Category.subnets => r.subnets
  | Category.security_lists => r.security_lists

/-- The `resources` dict as the association list it serializes to, keys in
source order. -/
def Resources.toAssoc (r : Resources) : List (String × List Record) :=
  [("compute_instances", r.compute_instances),
   ("block_volumes", r.block_volumes),
   ("object_storage_buckets", r.object_storage_buckets),
   ("autonomous_databases", r.autonomous_databases),
   ("load_balancers", r.load_balancers),
   ("vcns", r.vcns),
   ("subnets", r.subnets),
   ("security_lists", r.security_lists)]

/-- One iteration of the compartment loop (lines 79-222): every collector's
try block runs in order, each appending its records to its category's list. -/
def scanCompartment (env : Env) (r : Resources) (c : Compartment) : Resources :=
  { compute_instances :=
      r.compute_instances ++ pairRecords env c Category.compute_instances,
    block_volumes := r.block_volumes ++ pairRecords env c Category.block_volumes,
    object_storage_buckets :=
      r.object_storage_buckets ++ pairRecords env c Category.object_storage_buckets,
    autonomous_databases :=
      r.autonomous_databases ++ pairRecords env c Category.autonomous_databases,
    load_balancers := r.load_balancers ++ pairRecords env c Category.load_balancers,
    vcns := r.vcns ++ pairRecords env c Category.vcns,
    subnets := r.subnets ++ pairRecords env c Category.subnets,
    security_lists := r.security_lists ++ pairRecords env c Category.security_lists }

/-- The full compartment loop over the enumerated compartments. -/
def discoverLoop (env : Env) (comps : List Compartment) : Resources :=
  comps.foldl (scanCompartment env) emptyResources

/-- `_get_compartments` (lines 231-258): inside one `try`, fetch the root
compartment, append it, then append every compartment of the subtree
listing; the `except` catches ANY failure of that body and returns `[]`. -/
def getCompartments (env : Env) (tenancyId : String) : List Compartment :=
  match env.get_compartment tenancyId with
  | Except.error _ => []
  | Except.ok root =>
    match env.list_compartments tenancyId with
    | Except.error _ => []
    | Except.ok subs => root :: subs

/-- `discover_resources` (lines 41-229): config/signer/client construction may
raise (re-raised by the outer `except`, modelled as `.error`); afterwards the
compartment enumeration and scan loop swallow every listing failure. -/
def discover_resources (env : Env) (tenancyId : String) :
    Except String Resources :=
  match env.setup with
  | Except.error e => Except.error e
  | Except.ok _ => Except.ok (discoverLoop env (getCompartments env tenancyId))

/-- The parsed `--credentials` payload. -/
structure Credentials where
  userId : String
  fingerprint : String
  tenancyId : String
  region : String
  privateKey : String

/-- `main` (lines 260-287) reduced to its exit code: credential parsing and
`discover_resources` run inside one `try`; any exception exits 1, otherwise
the result is printed and the process exits 0.  `credSrc` models parsing the
`--credentials` argument and `mkEnv` the world the parsed credentials reach. -/
def mainExitCode (credSrc : Except String Credentials)
    (mkEnv : Credentials → Env) : Nat :=
  match credSrc with
  | Except.error _ => 1
  | Except.ok creds =>
    match discover_resources (mkEnv creds) creds.tenancyId with
    | Except.error _ => 1
    | Except.ok _ => 0

/-- `env` with the listing call of category `cat` failing (raising `msg`) for
compartment id `c0`, all other calls unchanged: the fault-injection used to
state fault isolation. -/
def updateFail (env : Env) (cat : Category) (c0 msg : String) : Env :=
  match cat with
  | Category.compute_instances =>
      { env with list_instances := fun cid =>
          if cid = c0 then Except.error msg else env.list_instances cid }
  | Category.block_volumes =>
      { env with list_volumes := fun cid =>
          if cid = c0 then Except.error msg else env.list_volumes cid }
  | Category.object_storage_buckets =>
      { env with list_buckets := fun ns cid =>
          if cid = c0 then Except.error msg else env.list_buckets ns cid }
  | Category.autonomous_databases =>
      { env with list_autonomous_databases := fun cid =>
          if cid = c0 then Except.error msg else env.list_autonomous_databases cid }
  | Category.load_balancers =>
      { env with list_load_balancers := fun cid =>
          if cid = c0 then Except.error msg else env.list_load_balancers cid }
  | Category.vcns =>
      { env with list_vcns := fun cid =>
          if cid = c0 then Except.error msg else env.list_vcns cid }
  | Category.subnets =>
      { env with list_subnets := fun cid =>
          if cid = c0 then Except.error msg else env.list_subnets cid }
  | Category.security_lists =>
      { env with list_security_lists := fun cid =>
          if cid = c0 then Except.error msg else env.list_security_lists cid }

/-- `env` with the listing call of category `cat` succeeding with zero results
for compartment id `c0`, all other calls unchanged: the "no resources exist"
twin of `updateFail`. -/
def updateEmpty (env : Env) (cat : Category) (c0 : String) : Env :=
  match cat with
  | Category.compute_instances =>
      { env with list_instances := fun cid =>
          if cid = c0 then Except.ok [] else env.list_instances cid }
  | Category.block_volumes =>
      { env with list_volumes := fun cid =>
          if cid = c0 then Except.ok [] else env.list_volumes cid }
  | Category.object_storage_buckets =>
      { env with list_buckets := fun ns cid =>
          if cid = c0 then Except.ok [] else env.list_buckets ns cid }
  | Category.autonomous_databases =>
      { env with list_autonomous_databases := fun cid =>
          if cid = c0 then Except.ok [] else env.list_autonomous_databases cid }
  | Category.load_balancers =>
      { env with list_load_balancers := fun cid =>
          if cid = c0 then Except.ok [] else env.list_load_balancers cid }
  | Category.vcns =>
      { env with list_vcns := fun cid =>
          if cid = c0 then Except.ok [] else env.list_vcns cid }
  | Category.subnets =>
      { env with list_subnets := fun cid =>
          if cid = c0 then Except.ok [] else env.list_subnets cid }
  | Category.security_lists =>
      { env with list_security_lists := fun cid =>
          if cid = c0 then Except.ok [] else env.list_security_lists cid }

end OCISimple

namespace OCISearch

open OCISimple (Timestamp Value Record tsField)

/-- One item of the structured search response, as consumed by
`discover_resources` of the top-level `oci_discovery.py` (lines 44-58).
The three tag/context attributes may be `None` (the source applies `or {}`). -/
structure SearchItem where
  identifier : String
  display_name : String
  resource_type : String
  compartment_id : String
  lifecycle_state : String
  availability_domain : String
  time_created : Option Timestamp
  defined_tags : Option (List (String × String))
  freeform_tags : Option (List (String × String))
  identity_context : Option (List (String × String))
deriving DecidableEq

/-- `x or {}`: a possibly-`None` mapping rendered as a (possibly empty) dict. -/
def orEmptyDict (o : Option (List (String × String))) : Value :=
  Value.obj (o.getD [])

/-- The per-item dictionary built in the loop (lines 46-57). -/
def itemRecord (it : SearchItem) : Record :=
  [("identifier", Value.str it.identifier),
   ("display_name", Value.str it.display_name),
   ("resource_type", Value.str it.resource_type),
   ("compartment_id", Value.str it.compartment_id),
   ("lifecycle_state", Value.str it.lifecycle_state),
   ("availability_domain", Value.str it.availability_domain),
   ("time_created", tsField it.time_created),
   ("defined_tags", orEmptyDict it.defined_tags),
   ("freeform_tags", orEmptyDict it.freeform_tags),
   ("identity_context", orEmptyDict it.identity_context)]

/-- A value of the top-level result dictionary returned by
`discover_resources`. -/
inductive OutVal where
  | bool : Bool → OutVal
  | str : String → OutVal
  | num : Nat → OutVal
  | records : List Record → OutVal
deriving DecidableEq

/-- `discover_resources` of `oci_discovery.py` (lines 15-72).  The whole body
runs inside one `try`; `search` models everything up to and including the
`search_resources` call, with `.ok none` a response whose `data`/`items` is
falsy and `.ok (some items)` a response carrying items.  The `except` branch
returns the failure dictionary with `success = False`, empty `resources` and
`total_count = 0`. -/
def discover_resources (search : Except String (Option (List SearchItem))) :
    List (String × OutVal) :=
  match search with
  | Except.error e =>
      [("success", OutVal.bool false),
       ("error", OutVal.str e),
       ("resources", OutVal.records []),
       ("total_count", OutVal.num 0)]
  | Except.ok data =>
      let resources : List Record :=
        match data with
        | none => []
        | some items => items.map itemRecord
      [("success", OutVal.bool true),
       ("resources", OutVal.records resources),
       ("total_count", OutVal.num resources.length)]

end OCISearch

namespace OCISimple

/-- Pointwise agreement of two crawl environments: every external call of the
script answers identically in both — "the same backing state on both runs". -/
def EnvAgree (e1 e2 : Env) : Prop :=
  e1.setup = e2.setup
  ∧ (∀ s, e1.get_compartment s = e2.get_compartment s)
  ∧ (∀ s, e1.list_compartments s = e2.list_compartments s)
  ∧ (∀ s, e1.list_instances s = e2.list_instances s)
  ∧ (∀ s, e1.list_volumes s = e2.list_volumes s)
  ∧ e1.get_namespace = e2.get_namespace
  ∧ (∀ ns s, e1.list_buckets ns s = e2.list_buckets ns s)
  ∧ (∀ s, e1.list_autonomous_databases s = e2.list_autonomous_databases s)
  ∧ (∀ s, e1.list_load_balancers s = e2.list_load_balancers s)
  ∧ (∀ s, e1.list_vcns s = e2.list_vcns s)
  ∧ (∀ s, e1.list_subnets s = e2.list_subnets s)
  ∧ (∀ s, e1.list_security_lists s = e2.list_security_lists s)

/-- Every binding of the record keyed `time_created` holds a textual timestamp
or null, and no binding at all holds a raw SDK datetime object. -/
def timestampNormalized (rec : Record) : Prop :=
  ∀ p ∈ rec,
    (p.1 = "time_created" → (∃ s, p.2 = Value.str s) ∨ p.2 = Value.null)
    ∧ ∀ t : Timestamp, p.2 ≠ Value.ts t

/-! ### Concrete inputs used by counterexamples and witnesses -/

/-- The root compartment of the concrete test tenancy. -/
def rootC : Compartment := ⟨"ocid1.tenancy.root", "Root"⟩

/-- Sub-compartment A of the concrete test tenancy. -/
def compA : Compartment := ⟨"ocid1.compartment.a", "A"⟩

/-- Sub-compartment B of the concrete test tenancy. -/
def compB : Compartment := ⟨"ocid1.compartment.b", "B"⟩

/-- A concrete compute instance living in compartment A. -/
def instA1 : Instance :=
  ⟨"ocid1.instance.a1", "vm-a1", "VM.Standard2.1", "RUNNING", "AD-1", some ⟨1⟩⟩

/-- A second concrete compute instance in compartment A. -/
def instA2 : Instance :=
  ⟨"ocid1.instance.a2", "vm-a2", "VM.Standard2.1", "STOPPED", "AD-1", some ⟨2⟩⟩

/-- A third concrete compute instance in compartment A, without a creation
timestamp. -/
def instA3 : Instance :=
  ⟨"ocid1.instance.a3", "vm-a3", "VM.Standard2.2", "RUNNING", "AD-2", none⟩

/-- A concrete healthy backing state: the root resolves, the subtree listing
returns compartments A and B, compartment A holds three compute instances and
every other listing answers with zero resources. -/
def envBase : Env :=
  { setup := Except.ok (),
    get_compartment := fun _ => Except.ok rootC,
    list_compartments := fun _ => Except.ok [compA, compB],
    list_instances := fun cid =>
      if cid = compA.id then Except.ok [instA1, instA2, instA3] else Except.ok [],
    list_volumes := fun _ => Except.ok [],
    get_namespace := Except.ok "axn",
    list_buckets := fun _ _ => Except.ok [],
    list_autonomous_databases := fun _ => Except.ok [],
    list_load_balancers := fun _ => Except.ok [],
    list_vcns := fun _ => Except.ok [],
    list_subnets := fun _ => Except.ok [],
    list_security_lists := fun _ => Except.ok [] }

/-- `envBase` with the recursive sub-compartment listing raising while the
root itself still resolves. -/
def envScopeDegraded : Env :=
  { envBase with list_compartments := fun _ => Except.error "subtree listing failed" }

/-- `envBase` with a subtree listing that also returns the root compartment. -/
def envRootDup : Env :=
  { envBase with list_compartments := fun _ => Except.ok [rootC] }

/-- `envBase` with root resolution itself raising: a fatal scope failure. -/
def envScopeFatal : Env :=
  { envBase with get_compartment := fun _ => Except.error "NotAuthenticated" }

/-- A concrete parsed credentials payload. -/
def credsC : Credentials :=
  ⟨"ocid1.user.u1", "aa:bb", "ocid1.tenancy.root", "us-phoenix-1", "PEM"⟩

/-! ### Structural lemmas about the scan loop -/

/-- Each fold step appends the compartment's per-pair records to every
category's list. -/
theorem fieldOf_scanCompartment (env : Env) (r : Resources) (c : Compartment)
    (cat : Category) :
    (scanCompartment env r c).fieldOf cat =
      r.fieldOf cat ++ pairRecords env c cat := by
  cases cat <;> rfl

/-- Folding the scan over `comps` starting from `r` appends, category by
category, the per-compartment contributions in order. -/
theorem fieldOf_foldl (env : Env) (comps : List Compartment) (r : Resources)
    (cat : Category) :
    (comps.foldl (scanCompartment env) r).fieldOf cat =
      r.fieldOf cat ++ (comps.map (fun c => pairRecords env c cat)).flatten := by
  induction comps generalizing r with
  | nil => simp
  | cons c cs ih =>
      simp only [List.foldl_cons, List.map_cons, List.flatten_cons]
      rw [ih, fieldOf_scanCompartment, List.append_assoc]

/-- Decomposition of the crawl: each category of the final `resources` dict is
the concatenation, over the scanned compartments in order, of that
(compartment, collector) pair's records. -/
theorem fieldOf_discoverLoop (env : Env) (comps : List Compartment)
    (cat : Category) :
    (discoverLoop env comps).fieldOf cat =
      (comps.map (fun c => pairRecords env c cat)).flatten := by
  have h := fieldOf_foldl env comps emptyResources cat
  have he : emptyResources.fieldOf cat = [] := by cases cat <;> rfl
  rw [discoverLoop, h, he, List.nil_append]

/-- Fault injection is local: making category `cat0` fail at compartment id
`c0` empties exactly that pair's records and leaves every other
(compartment, collector) pair's records untouched. -/
theorem pairRecords_updateFail (env : Env) (cat0 : Category) (c0 msg : String)
    (c : Compartment) (cat : Category) :
    pairRecords (updateFail env cat0 c0 msg) c cat =
      if cat = cat0 ∧ c.id = c0 then [] else pairRecords env c cat := by
  cases cat0 <;> cases cat <;>
    simp only [updateFail, pairRecords, collectBuckets, tryCollect] <;>
    by_cases h : c.id = c0 <;>
    simp [h] <;>
    cases env.get_namespace <;> simp

/-- A listing that succeeds with zero results at (cat0, c0) also contributes
the empty record list there and leaves every other pair untouched. -/
theorem pairRecords_updateEmpty (env : Env) (cat0 : Category) (c0 : String)
    (c : Compartment) (cat : Category) :
    pairRecords (updateEmpty env cat0 c0) c cat =
      if cat = cat0 ∧ c.id = c0 then [] else pairRecords env c cat := by
  cases cat0 <;> cases cat <;>
    simp only [updateEmpty, pairRecords, collectBuckets, tryCollect] <;>
    by_cases h : c.id = c0 <;>
    simp [h] <;>
    cases env.get_namespace <;> simp

/-- Fault injection leaves the config/signer construction untouched. -/
theorem setup_updateFail (env : Env) (cat : Category) (c0 msg : String) :
    (updateFail env cat c0 msg).setup = env.setup := by
  cases cat <;> rfl

/-- Zero-result injection leaves the config/signer construction untouched. -/
theorem setup_updateEmpty (env : Env) (cat : Category) (c0 : String) :
    (updateEmpty env cat c0).setup = env.setup := by
  cases cat <;> rfl

/-- Fault injection on a collector call leaves the identity calls, and hence
compartment enumeration, untouched. -/
theorem getCompartments_updateFail (env : Env) (cat : Category) (c0 msg t : String) :
    getCompartments (updateFail env cat c0 msg) t = getCompartments env t := by
  cases cat <;> rfl

/-- Zero-result injection on a collector call leaves compartment enumeration
untouched. -/
theorem getCompartments_updateEmpty (env : Env) (cat : Category) (c0 t : String) :
    getCompartments (updateEmpty env cat c0) t = getCompartments env t := by
  cases cat <;> rfl

/-- Two `resources` dicts agreeing on every category are equal. -/
theorem resources_eq_of_fieldOf (r1 r2 : Resources)
    (h : ∀ cat, r1.fieldOf cat = r2.fieldOf cat) : r1 = r2 := by
  cases r1; cases r2
  simp only [Resources.mk.injEq]
  exact ⟨h Category.compute_instances, h Category.block_volumes,
    h Category.object_storage_buckets, h Category.autonomous_databases,
    h Category.load_balancers, h Category.vcns, h Category.subnets,
    h Category.security_lists⟩

/-- Environments answering every call identically are equal. -/
theorem env_eq_of_agree (e1 e2 : Env) (h : EnvAgree e1 e2) : e1 = e2 := by
  obtain ⟨h1, h2, h3, h4, h5, h6, h7, h8, h9, h10, h11, h12⟩ := h
  cases e1; cases e2
  simp only [Env.mk.injEq]
  exact ⟨h1, funext h2, funext h3, funext h4, funext h5, h6,
    funext fun ns => funext (h7 ns), funext h8, funext h9, funext h10,
    funext h11, funext h12⟩

/-- The rendering of a nullable timestamp is textual or null, never a raw
datetime object. -/
theorem tsField_textual (o : Option Timestamp) :
    ((∃ s, tsField o = Value.str s) ∨ tsField o = Value.null)
    ∧ ∀ t : Timestamp, tsField o ≠ Value.ts t := by
  cases o with
  | none => exact ⟨Or.inr rfl, fun t ht => Value.noConfusion ht⟩
  | some t0 =>
      exact ⟨Or.inl ⟨t0.isoformat, rfl⟩, fun t ht => Value.noConfusion ht⟩

/-- The empty record is normalized. -/
theorem timestampNormalized_nil : timestampNormalized ([] : Record) := by
  intro p hp
  exact absurd hp (List.not_mem_nil p)

/-- Extending a normalized record with an admissible binding keeps it
normalized. -/
theorem timestampNormalized_cons (k : String) (v : Value) (rest : Record)
    (h1 : k = "time_created" → (∃ s, v = Value.str s) ∨ v = Value.null)
    (h2 : ∀ t : Timestamp, v ≠ Value.ts t)
    (h : timestampNormalized rest) :
    timestampNormalized ((k, v) :: rest) := by
  intro p hp
  rcases List.mem_cons.mp hp with hq | hp2
  · subst hq; exact ⟨h1, h2⟩
  · exact h p hp2

/-- A string-valued binding under a key other than `time_created` is
admissible. -/
theorem strEntry (k s : String) (hk : ¬k = "time_created") (rest : Record)
    (h : timestampNormalized rest) :
    timestampNormalized ((k, Value.str s) :: rest) :=
  timestampNormalized_cons k _ rest (fun hkk => absurd hkk hk)
    (fun _ ht => Value.noConfusion ht) h

/-- A numeric binding under a key other than `time_created` is admissible. -/
theorem numEntry (k : String) (n : Nat) (hk : ¬k = "time_created")
    (rest : Record) (h : timestampNormalized rest) :
    timestampNormalized ((k, Value.num n) :: rest) :=
  timestampNormalized_cons k _ rest (fun hkk => absurd hkk hk)
    (fun _ ht => Value.noConfusion ht) h

/-- A mapping binding under a key other than `time_created` is admissible. -/
theorem objEntry (k : String) (o : List (String × String))
    (hk : ¬k = "time_created") (rest : Record) (h : timestampNormalized rest) :
    timestampNormalized ((k, Value.obj o) :: rest) :=
  timestampNormalized_cons k _ rest (fun hkk => absurd hkk hk)
    (fun _ ht => Value.noConfusion ht) h

/-- A rendered-timestamp binding is admissible under any key. -/
theorem tsEntry (k : String) (o : Option Timestamp) (rest : Record)
    (h : timestampNormalized rest) :
    timestampNormalized ((k, tsField o) :: rest) :=
  timestampNormalized_cons k _ rest (fun _ => (tsField_textual o).1)
    (tsField_textual o).2 h

/-- Every compute-instance record is normalized. -/
theorem instanceRecord_normalized (nm : String) (i : Instance) :
    timestampNormalized (instanceRecord nm i) := by
  unfold instanceRecord
  exact strEntry _ _ (by decide) _ <| strEntry _ _ (by decide) _ <|
    strEntry _ _ (by decide) _ <| strEntry _ _ (by decide) _ <|
    strEntry _ _ (by decide) _ <| strEntry _ _ (by decide) _ <|
    tsEntry _ _ _ timestampNormalized_nil

/-- Every block-volume record is normalized. -/
theorem volumeRecord_normalized (nm : String) (v : Volume) :
    timestampNormalized (volumeRecord nm v) := by
  unfold volumeRecord
  exact strEntry _ _ (by decide) _ <| strEntry _ _ (by decide) _ <|
    numEntry _ _ (by decide) _ <| strEntry _ _ (by decide) _ <|
    strEntry _ _ (by decide) _ <| strEntry _ _ (by decide) _ <|
    tsEntry _ _ _ timestampNormalized_nil

/-- Every bucket record is normalized. -/
theorem bucketRecord_normalized (nm ns : String) (b : Bucket) :
    timestampNormalized (bucketRecord nm ns b) := by
  unfold bucketRecord
  exact strEntry _ _ (by decide) _ <| strEntry _ _ (by decide) _ <|
    strEntry _ _ (by decide) _ <| strEntry _ _ (by decide) _ <|
    tsEntry _ _ _ timestampNormalized_nil

/-- Every autonomous-database record is normalized. -/
theorem adbRecord_normalized (nm : String) (a : Adb) :
    timestampNormalized (adbRecord nm a) := by
  unfold adbRecord
  exact strEntry _ _ (by decide) _ <| strEntry _ _ (by decide) _ <|
    strEntry _ _ (by decide) _ <| strEntry _ _ (by decide) _ <|
    strEntry _ _ (by decide) _ <| numEntry _ _ (by decide) _ <|
    numEntry _ _ (by decide) _ <| tsEntry _ _ _ timestampNormalized_nil

/-- Every load-balancer record is normalized. -/
theorem lbRecord_normalized (nm : String) (l : LoadBalancer) :
    timestampNormalized (lbRecord nm l) := by
  unfold lbRecord
  exact strEntry _ _ (by decide) _ <| strEntry _ _ (by decide) _ <|
    strEntry _ _ (by decide) _ <| strEntry _ _ (by decide) _ <|
    strEntry _ _ (by decide) _ <| tsEntry _ _ _ timestampNormalized_nil

/-- Every VCN record is normalized. -/
theorem vcnRecord_normalized (nm : String) (v : Vcn) :
    timestampNormalized (vcnRecord nm v) := by
  unfold vcnRecord
  exact strEntry _ _ (by decide) _ <| strEntry _ _ (by decide) _ <|
    strEntry _ _ (by decide) _ <| strEntry _ _ (by decide) _ <|
    strEntry _ _ (by decide) _ <| tsEntry _ _ _ timestampNormalized_nil

/-- Every subnet record is normalized. -/
theorem subnetRecord_normalized (nm : String) (s : Subnet) :
    timestampNormalized (subnetRecord nm s) := by
  unfold subnetRecord
  exact strEntry _ _ (by decide) _ <| strEntry _ _ (by decide) _ <|
    strEntry _ _ (by decide) _ <| strEntry _ _ (by decide) _ <|
    strEntry _ _ (by decide) _ <| strEntry _ _ (by decide) _ <|
    tsEntry _ _ _ timestampNormalized_nil

/-- Every security-list record is normalized. -/
theorem securityListRecord_normalized (nm : String) (s : SecurityList) :
    timestampNormalized (securityListRecord nm s) := by
  unfold securityListRecord
  exact strEntry _ _ (by decide) _ <| strEntry _ _ (by decide) _ <|
    strEntry _ _ (by decide) _ <| strEntry _ _ (by decide) _ <|
    strEntry _ _ (by decide) _ <| tsEntry _ _ _ timestampNormalized_nil

/-- Every record built by the search-based script is normalized. -/
theorem itemRecord_normalized (it : OCISearch.SearchItem) :
    timestampNormalized (OCISearch.itemRecord it) := by
  unfold OCISearch.itemRecord OCISearch.orEmptyDict
  exact strEntry _ _ (by decide) _ <| strEntry _ _ (by decide) _ <|
    strEntry _ _ (by decide) _ <| strEntry _ _ (by decide) _ <|
    strEntry _ _ (by decide) _ <| strEntry _ _ (by decide) _ <|
    tsEntry _ _ _ <| objEntry _ _ (by decide) _ <|
    objEntry _ _ (by decide) _ <| objEntry _ _ (by decide) _
    timestampNormalized_nil

/-- Every record a (compartment, collector) pair contributes carries the
scanned compartment's name and is normalized. -/
theorem pairRecords_shape (env : Env) (c : Compartment) (cat : Category) :
    ∀ rec ∈ pairRecords env c cat,
      ("compartment", Value.str c.name) ∈ rec ∧ timestampNormalized rec := by
  intro rec h
  cases cat with
  | compute_instances =>
      simp only [pairRecords] at h
      cases hl : env.list_instances c.id with
      | error e => simp [hl, tryCollect] at h
      | ok xs =>
          simp only [hl, tryCollect, List.mem_map] at h
          obtain ⟨x, _, rfl⟩ := h
          exact ⟨by simp [instanceRecord], instanceRecord_normalized c.name x⟩
  | block_volumes =>
      simp only [pairRecords] at h
      cases hl : env.list_volumes c.id with
      | error e => simp [hl, tryCollect] at h
      | ok xs =>
          simp only [hl, tryCollect, List.mem_map] at h
          obtain ⟨x, _, rfl⟩ := h
          exact ⟨by simp [volumeRecord], volumeRecord_normalized c.name x⟩
  | object_storage_buckets =>
      simp only [pairRecords, collectBuckets] at h
      cases hn : env.get_namespace with
      | error e => simp [hn] at h
      | ok ns =>
          simp only [hn] at h
          cases hb : env.list_buckets ns c.id with
          | error e => simp [hb] at h
          | ok bs =>
              simp only [hb, List.mem_map] at h
              obtain ⟨b, _, rfl⟩ := h
              exact ⟨by simp [bucketRecord], bucketRecord_normalized c.name ns b⟩
  | autonomous_databases =>
      simp only [pairRecords] at h
      cases hl : env.list_autonomous_databases c.id with
      | error e => simp [hl, tryCollect] at h
      | ok xs =>
          simp only [hl, tryCollect, List.mem_map] at h
          obtain ⟨x, _, rfl⟩ := h
          exact ⟨by simp [adbRecord], adbRecord_normalized c.name x⟩
  | load_balancers =>
      simp only [pairRecords] at h
      cases hl : env.list_load_balancers c.id with
      | error e => simp [hl, tryCollect] at h
      | ok xs =>
          simp only [hl, tryCollect, List.mem_map] at h
          obtain ⟨x, _, rfl⟩ := h
          exact ⟨by simp [lbRecord], lbRecord_normalized c.name x⟩
  | vcns =>
      simp only [pairRecords] at h
      cases hl : env.list_vcns c.id with
      | error e => simp [hl, tryCollect] at h
      | ok xs =>
          simp only [hl, tryCollect, List.mem_map] at h
          obtain ⟨x, _, rfl⟩ := h
          exact ⟨by simp [vcnRecord], vcnRecord_normalized c.name x⟩
  | subnets =>
      simp only [pairRecords] at h
      cases hl : env.list_subnets c.id with
      | error e => simp [hl, tryCollect] at h
      | ok xs =>
          simp only [hl, tryCollect, List.mem_map] at h
          obtain ⟨x, _, rfl⟩ := h
          exact ⟨by simp [subnetRecord], subnetRecord_normalized c.name x⟩
  | security_lists =>
      simp only [pairRecords] at h
      cases hl : env.list_security_lists c.id with
      | error e => simp [hl, tryCollect] at h
      | ok xs =>
          simp only [hl, tryCollect, List.mem_map] at h
          obtain ⟨x, _, rfl⟩ := h
          exact ⟨by simp [securityListRecord], securityListRecord_normalized c.name x⟩

/-! ### The claims -/

/-- C1: fault isolation of the crawl.  If the listing call of exactly one
(compartment, collector) pair raises, then (i) every other pair contributes
exactly the records it contributed before the fault, (ii) the crawl still
completes, with each category of the result the concatenation of the
per-pair contributions over the unchanged compartment sequence, and (iii)
`discover_resources` still returns normally whenever setup succeeds: a single
collector failure never aborts the crawl. -/
theorem c1_fault_isolation (env : Env) (cat0 : Category) (c0 msg t : String) :
    (∀ c : Compartment, ∀ cat : Category, ¬(cat = cat0 ∧ c.id = c0) →
        pairRecords (updateFail env cat0 c0 msg) c cat = pairRecords env c cat)
    ∧ (∀ cat : Category,
        (discoverLoop (updateFail env cat0 c0 msg)
            (getCompartments (updateFail env cat0 c0 msg) t)).fieldOf cat =
          ((getCompartments env t).map
              (fun c => pairRecords (updateFail env cat0 c0 msg) c cat)).flatten)
    ∧ (env.setup = Except.ok () →
        ∃ r, discover_resources (updateFail env cat0 c0 msg) t = Except.ok r) := by
  refine ⟨?_, ?_, ?_⟩
  · intro c cat hne
    rw [pairRecords_updateFail, if_neg hne]
  · intro cat
    rw [getCompartments_updateFail, fieldOf_discoverLoop]
  · intro hs
    refine ⟨discoverLoop (updateFail env cat0 c0 msg)
      (getCompartments (updateFail env cat0 c0 msg) t), ?_⟩
    simp only [discover_resources, setup_updateFail, hs]

/-- C2 counterexample: a crawl in which the compute listing of compartment A
raised is indistinguishable, from the returned report alone, from a crawl in
which that listing succeeded with zero resources — the two reports are equal,
so no consumer can tell "empty because failed" from "empty because none
exist", and no CollectorFailure entry exists anywhere in the output. -/
theorem c2_counterexample :
    (updateFail envBase Category.compute_instances compA.id "denied").list_instances
        compA.id = Except.error "denied"
    ∧ (updateEmpty envBase Category.compute_instances compA.id).list_instances
        compA.id = Except.ok []
    ∧ discover_resources (updateFail envBase Category.compute_instances
        compA.id "denied") "ocid1.tenancy.root" =
      discover_resources (updateEmpty envBase Category.compute_instances
        compA.id) "ocid1.tenancy.root" := by
  refine ⟨rfl, rfl, rfl⟩

/-- C2 amended: the returned report does NOT distinguish a category that is
empty because its collector failed from one empty because no resources exist:
for every backing state, failing one (compartment, collector) pair and having
that same pair succeed with zero results yield identical reports — failures
are only logged to the stderr side channel, never recorded in the output. -/
theorem c2_failure_indistinguishable (env : Env) (cat0 : Category)
    (c0 msg t : String) :
    discover_resources (updateFail env cat0 c0 msg) t =
      discover_resources (updateEmpty env cat0 c0) t := by
  have hloop : discoverLoop (updateFail env cat0 c0 msg) (getCompartments env t) =
      discoverLoop (updateEmpty env cat0 c0) (getCompartments env t) := by
    apply resources_eq_of_fieldOf
    intro cat
    rw [fieldOf_discoverLoop, fieldOf_discoverLoop]
    have hfun : (fun c => pairRecords (updateFail env cat0 c0 msg) c cat) =
        fun c => pairRecords (updateEmpty env cat0 c0) c cat := by
      funext c
      rw [pairRecords_updateFail, pairRecords_updateEmpty]
    rw [hfun]
  simp only [discover_resources, setup_updateFail, setup_updateEmpty]
  cases env.setup with
  | error e => rfl
  | ok u =>
      rw [getCompartments_updateFail, getCompartments_updateEmpty, hloop]

/-- C3 counterexample: with the root resolving but the recursive subtree
listing raising, `_get_compartments` returns the empty sequence — not the
one-element sequence holding the root that the claim requires. -/
theorem c3_counterexample :
    envScopeDegraded.get_compartment "ocid1.tenancy.root" = Except.ok rootC
    ∧ envScopeDegraded.list_compartments "ocid1.tenancy.root" =
        Except.error "subtree listing failed"
    ∧ getCompartments envScopeDegraded "ocid1.tenancy.root" = []
    ∧ getCompartments envScopeDegraded "ocid1.tenancy.root" ≠ [rootC] := by
  refine ⟨rfl, rfl, rfl, by decide⟩

/-- C3 amended: the single `try` of `_get_compartments` also covers the
subtree listing, so when root resolution succeeds but the recursive listing
raises, the function returns the EMPTY sequence (the crawl scans zero
compartments) — the failure is still non-fatal (nothing propagates), but the
root is lost along with the subtree. -/
theorem c3_degraded_scope_returns_empty (env : Env) (t : String)
    (root : Compartment) (msg : String)
    (h1 : env.get_compartment t = Except.ok root)
    (h2 : env.list_compartments t = Except.error msg) :
    getCompartments env t = [] := by
  simp [getCompartments, h1, h2]

/-- C3 witness: the amended behaviour at the concrete degraded backing
state. -/
theorem c3_degraded_scope_witness :
    getCompartments envScopeDegraded "ocid1.tenancy.root" = [] :=
  c3_degraded_scope_returns_empty envScopeDegraded "ocid1.tenancy.root" rootC
    "subtree listing failed" rfl rfl

/-- C4 counterexample: when the subtree listing also returns the root, the
root appears TWICE in the enumeration — `_get_compartments` performs no
deduplication by id. -/
theorem c4_counterexample :
    getCompartments envRootDup "ocid1.tenancy.root" = [rootC, rootC]
    ∧ (getCompartments envRootDup "ocid1.tenancy.root").count rootC = 2 := by
  refine ⟨rfl, by decide⟩

/-- C4 amended: on success the enumeration is the root prepended verbatim to
the subtree listing, in order — the root always appears (first), but no
dedup by id is performed, so a subtree listing containing the root yields a
duplicate. -/
theorem c4_root_prepended (env : Env) (t : String) (root : Compartment)
    (subs : List Compartment)
    (h1 : env.get_compartment t = Except.ok root)
    (h2 : env.list_compartments t = Except.ok subs) :
    getCompartments env t = root :: subs := by
  simp [getCompartments, h1, h2]

/-- C4 witness: the amended behaviour at the concrete healthy backing
state. -/
theorem c4_root_prepended_witness :
    getCompartments envBase "ocid1.tenancy.root" = [rootC, compA, compB] :=
  c4_root_prepended envBase "ocid1.tenancy.root" rootC [compA, compB]
    rfl rfl

/-- C5 counterexample: root resolution fails fatally (the scope cannot be
resolved at all), yet `main` exits 0 — `_get_compartments` swallows the
failure into an empty compartment list, `discover_resources` returns
normally, and the claimed non-zero exit never happens. -/
theorem c5_counterexample :
    envScopeFatal.get_compartment credsC.tenancyId = Except.error "NotAuthenticated"
    ∧ getCompartments envScopeFatal credsC.tenancyId = []
    ∧ mainExitCode (Except.ok credsC) (fun _ => envScopeFatal) = 0 := by
  refine ⟨rfl, rfl, rfl⟩

/-- C5 amended: `main` exits 0 exactly when credential parsing succeeds and
the config/signer/client setup succeeds; every scope-resolution failure is
swallowed by `_get_compartments` (yielding an empty compartment list) and
still exits 0, and the non-zero exits are those where parsing or setup
raises. -/
theorem c5_exit_code (credSrc : Except String Credentials)
    (mkEnv : Credentials → Env) :
    mainExitCode credSrc mkEnv = 0 ↔
      ∃ creds, credSrc = Except.ok creds ∧ (mkEnv creds).setup = Except.ok () := by
  cases credSrc with
  | error e => simp [mainExitCode]
  | ok creds =>
      simp only [mainExitCode, discover_resources]
      cases hs : (mkEnv creds).setup with
      | error e => simp [hs]
      | ok u => cases u; simp [hs]

/-- C6: the category-key invariant.  Every `resources` value — hence every
intermediate state of the crawl and the final report — has exactly the
statically registered category keys, in registration order; every key of the
output is a registered category; injecting a collector failure leaves the key
set unchanged, the failing pair merely contributing zero records. -/
theorem c6_category_keys (env : Env) (comps : List Compartment)
    (cat0 : Category) (c0 msg : String) :
    (∀ r : Resources, r.toAssoc.map Prod.fst = categories)
    ∧ (∀ k recs, (k, recs) ∈ (discoverLoop env comps).toAssoc → k ∈ categories)
    ∧ ((discoverLoop (updateFail env cat0 c0 msg) comps).toAssoc.map Prod.fst =
        categories)
    ∧ (∀ c : Compartment, c.id = c0 →
        pairRecords (updateFail env cat0 c0 msg) c cat0 = []) := by
  refine ⟨fun r => rfl, ?_, rfl, ?_⟩
  · intro k recs hk
    simp only [Resources.toAssoc, List.mem_cons, List.not_mem_nil, or_false,
      Prod.mk.injEq] at hk
    rcases hk with ⟨rfl, -⟩|⟨rfl, -⟩|⟨rfl, -⟩|⟨rfl, -⟩|⟨rfl, -⟩|⟨rfl, -⟩|⟨rfl, -⟩|⟨rfl, -⟩ <;>
      decide
  · intro c hc
    rw [pairRecords_updateFail, if_pos ⟨rfl, hc⟩]

/-- C7: crawl idempotence.  Two runs against backing states answering every
call identically produce equal reports — in particular equal `resources`
content per category (a fortiori up to order) and the same (absent) failure
information. -/
theorem c7_idempotence (e1 e2 : Env) (t : String) (h : EnvAgree e1 e2) :
    discover_resources e1 t = discover_resources e2 t
    ∧ ∀ cat, (discoverLoop e1 (getCompartments e1 t)).fieldOf cat =
        (discoverLoop e2 (getCompartments e2 t)).fieldOf cat := by
  have he : e1 = e2 := env_eq_of_agree e1 e2 h
  subst he
  exact ⟨rfl, fun _ => rfl⟩

/-- C7 witness: idempotence at the concrete healthy backing state. -/
theorem c7_idempotence_witness :
    discover_resources envBase "ocid1.tenancy.root" =
      discover_resources envBase "ocid1.tenancy.root" :=
  (c7_idempotence envBase envBase "ocid1.tenancy.root"
    ⟨rfl, fun _ => rfl, fun _ => rfl, fun _ => rfl, fun _ => rfl, rfl,
      fun _ _ => rfl, fun _ => rfl, fun _ => rfl, fun _ => rfl, fun _ => rfl,
      fun _ => rfl⟩).1

/-- C8: timestamp normalization.  Every record of every category of the crawl
output has its `time_created` binding textual (the isoformat rendering) or
null, and no binding anywhere holds a raw SDK datetime object; likewise for
every record the search-based script builds. -/
theorem c8_timestamp_normalization (env : Env) (comps : List Compartment)
    (cat : Category) (rec : Record)
    (h : rec ∈ (discoverLoop env comps).fieldOf cat) :
    timestampNormalized rec
    ∧ ∀ it : OCISearch.SearchItem, timestampNormalized (OCISearch.itemRecord it) := by
  constructor
  · rw [fieldOf_discoverLoop, List.mem_flatten] at h
    obtain ⟨l, hl, hrec⟩ := h
    rw [List.mem_map] at hl
    obtain ⟨c, _, rfl⟩ := hl
    exact (pairRecords_shape env c cat rec hrec).2
  · exact itemRecord_normalized

/-- C8 witness: a concrete emitted record is normalized. -/
theorem c8_timestamp_normalization_witness :
    instanceRecord compA.name instA1 ∈
      (discoverLoop envBase (getCompartments envBase "ocid1.tenancy.root")).fieldOf
        Category.compute_instances
    ∧ (timestampNormalized (instanceRecord compA.name instA1)
        ∧ ∀ it : OCISearch.SearchItem,
            timestampNormalized (OCISearch.itemRecord it)) :=
  ⟨by decide,
    c8_timestamp_normalization envBase
      (getCompartments envBase "ocid1.tenancy.root")
      Category.compute_instances (instanceRecord compA.name instA1) (by decide)⟩

/-- C9: record provenance.  Each category of the output is the concatenation
of the per-compartment contributions in scan order; every record a pair
contributes carries the scanned compartment's name under the `compartment`
key; and the output length per category is the sum of the per-compartment
contribution lengths — so a collector returning 3 records in compartment A
and 0 elsewhere yields exactly 3 records, all naming A. -/
theorem c9_record_provenance (env : Env) (comps : List Compartment)
    (cat : Category) :
    ((discoverLoop env comps).fieldOf cat =
        (comps.map (fun c => pairRecords env c cat)).flatten)
    ∧ (∀ c ∈ comps, ∀ rec ∈ pairRecords env c cat,
        ("compartment", Value.str c.name) ∈ rec)
    ∧ (((discoverLoop env comps).fieldOf cat).length =
        (comps.map (fun c => (pairRecords env c cat).length)).sum) := by
  refine ⟨fieldOf_discoverLoop env comps cat, ?_, ?_⟩
  · intro c _ rec hrec
    exact (pairRecords_shape env c cat rec hrec).1
  · rw [fieldOf_discoverLoop, List.length_flatten, List.map_map]
    rfl

/-- C9 witness: the Scenario-B instance — three compute records from
compartment A, zero from the root and from B, so the category holds exactly
three records, each carrying compartment name "A". -/
theorem c9_record_provenance_witness :
    ((discoverLoop envBase (getCompartments envBase "ocid1.tenancy.root")).fieldOf
        Category.compute_instances).length = 3
    ∧ ∀ rec ∈ (discoverLoop envBase
        (getCompartments envBase "ocid1.tenancy.root")).fieldOf
          Category.compute_instances,
        ("compartment", Value.str "A") ∈ rec := by
  refine ⟨by decide, by decide⟩

/-- C10: totality and count consistency of the search-based entry point.
For every outcome of the search call, `discover_resources` of
`oci_discovery.py` returns a dictionary that binds `success`, binds
`resources` to a record list and `total_count` to exactly that list's
length, and on an exception returns the exact failure dictionary with
`success = False`, empty `resources` and `total_count = 0`. -/
theorem c10_search_totality
    (search : Except String (Option (List OCISearch.SearchItem))) :
    (∃ b, (OCISearch.discover_resources search).lookup "success" =
        some (OCISearch.OutVal.bool b))
    ∧ (∃ rs, (OCISearch.discover_resources search).lookup "resources" =
          some (OCISearch.OutVal.records rs)
        ∧ (OCISearch.discover_resources search).lookup "total_count" =
          some (OCISearch.OutVal.num rs.length))
    ∧ (∀ e, search = Except.error e →
        OCISearch.discover_resources search =
          [("success", OCISearch.OutVal.bool false),
           ("error", OCISearch.OutVal.str e),
           ("resources", OCISearch.OutVal.records []),
           ("total_count", OCISearch.OutVal.num 0)]) := by
  cases search with
  | error e =>
      refine ⟨⟨false, rfl⟩, ⟨[], rfl, rfl⟩, ?_⟩
      intro e2 he
      cases he
      rfl
  | ok data =>
      cases data with
      | none => exact ⟨⟨true, rfl⟩, ⟨[], rfl, rfl⟩, fun e he => by cases he⟩
      | some items =>
          exact ⟨⟨true, rfl⟩, ⟨items.map OCISearch.itemRecord, rfl, rfl⟩,
            fun e he => by cases he⟩

/-- C10 witness: the failure dictionary at a concrete raised exception. -/
theorem c10_search_totality_witness :
    OCISearch.discover_resources (Except.error "boom") =
      [("success", OCISearch.OutVal.bool false),
       ("error", OCISearch.OutVal.str "boom"),
       ("resources", OCISearch.OutVal.records []),
       ("total_count", OCISearch.OutVal.num 0)] :=
  (c10_search_totality (Except.error "boom")).2.2 "boom" rfl

end OCISimple
